import Mathlib

/-!
Shallow embedding of the smalltree session engine.

The engine lives in the React component `App` (src/unnamed/part_000) together
with the constants module appended to the same file and the `SessionStats` type
from src/types.ts.  Reactive `useState` variables become fields of an explicit
`AppModel` record; each handler and the game-loop `tick` become pure functions
`AppModel → ... → AppModel`.  JavaScript numbers are modelled as exact
rationals (ℚ); `Math.floor` becomes `Int.floor`, the JS `%` operator becomes a
truncation-based remainder (`jsMod`), and `Math.min`/`Math.max` become
`min`/`max` on ℚ.  The level sensor is external: its raw decibel sample is an
input of `tick`, and the success/failure of sensor acquisition is a boolean
input of the action handlers.
-/

namespace SmallTree

/-- constants.ts: `EMA_ALPHA = 0.2` — EMA factor for UI smoothing. -/
def EMA_ALPHA : ℚ := 2/10

/-- constants.ts: `MIN_DECIBELS = -100`. -/
def MIN_DECIBELS : ℚ := -100

/-- constants.ts: `CALIBRATION_DURATION_MS = 3000`. -/
def CALIBRATION_DURATION_MS : ℚ := 3000

/-- constants.ts: `DEFAULT_NOISE_FLOOR_DB = -60`. -/
def DEFAULT_NOISE_FLOOR_DB : ℚ := -60

/-- constants.ts: `TARGET_DB_OFFSET = 10`. -/
def TARGET_DB_OFFSET : ℚ := 10

/-- constants.ts: `SCREAM_THRESHOLD_DB = -15`. -/
def SCREAM_THRESHOLD_DB : ℚ := -15

/-- constants.ts: `MAX_TREE_HEIGHT = 100`. -/
def MAX_TREE_HEIGHT : ℚ := 100

/-- constants.ts: `POINTS_PER_SECOND = 10`. -/
def POINTS_PER_SECOND : ℚ := 10

/-- constants.ts: `UPDATE_INTERVAL_MS = 100` — game loop tick rate. -/
def UPDATE_INTERVAL_MS : ℚ := 100

/-- part_000 line 40: `TREE_CYCLE_SECONDS = MAX_TREE_HEIGHT / POINTS_PER_SECOND`. -/
def TREE_CYCLE_SECONDS : ℚ := MAX_TREE_HEIGHT / POINTS_PER_SECOND

/-- types.ts: the `AppState` enum. -/
inductive AppState where
  | IDLE
  | CALIBRATING
  | READING
  | PAUSED
  | COMPLETED
deriving DecidableEq

/-- types.ts: the `SessionStats` interface.  `treesPlanted` is always an
integer (it is only ever written by `Math.floor`), so it is modelled as ℤ. -/
structure SessionStats where
  duration : ℚ
  validDuration : ℚ
  tooLoudDuration : ℚ
  treesPlanted : ℤ
deriving DecidableEq

/-- The reactive state of the `App` component (part_000 lines 20-34):
`appState`, `currentDb` (the EMA-smoothed display value), `noiseFloor`,
`stats`, `permissionError`, and the `calibrationStartTimeRef` ref. -/
structure AppModel where
  appState : AppState
  currentDb : ℚ
  noiseFloor : ℚ
  stats : SessionStats
  permissionError : Option String
  calibrationStartTime : ℚ
deriving DecidableEq

/-- Initial component state (part_000 lines 20-34): `IDLE`, `currentDb = -100`,
`noiseFloor = DEFAULT_NOISE_FLOOR_DB`, zeroed stats, no error. -/
def initModel : AppModel :=
  { appState := AppState.IDLE
    currentDb := -100
    noiseFloor := DEFAULT_NOISE_FLOOR_DB
    stats := { duration := 0, validDuration := 0, tooLoudDuration := 0, treesPlanted := 0 }
    permissionError := none
    calibrationStartTime := 0 }

/-- part_000 line 37: `targetDb = noiseFloor + TARGET_DB_OFFSET`. -/
def targetDb (m : AppModel) : ℚ := m.noiseFloor + TARGET_DB_OFFSET

/-- JavaScript `Math.trunc`-style integer part (JS `%` truncates toward zero). -/
def jsTrunc (q : ℚ) : ℤ := if 0 ≤ q then ⌊q⌋ else ⌈q⌉

/-- The JavaScript `%` operator on numbers: `a - b * trunc(a / b)`. -/
def jsMod (a b : ℚ) : ℚ := a - b * jsTrunc (a / b)

/-- part_000 lines 43-44: growth is the valid duration within the current
cycle, as a percentage capped at 100. -/
def growthPercentage (s : SessionStats) : ℚ :=
  min 100 (jsMod s.validDuration TREE_CYCLE_SECONDS / TREE_CYCLE_SECONDS * 100)

/-- The meter status values returned by `getVolumeStatus` (part_000 48-54). -/
inductive VolumeStatus where
  | idle
  | calibrating
  | quiet
  | good
  | loud
deriving DecidableEq

/-- part_000 lines 48-54: `getVolumeStatus(db)`. -/
def getVolumeStatus (m : AppModel) (db : ℚ) : VolumeStatus :=
  if m.appState = AppState.CALIBRATING then VolumeStatus.calibrating
  else if m.appState ≠ AppState.READING then VolumeStatus.idle
  else if db > SCREAM_THRESHOLD_DB then VolumeStatus.loud
  else if db ≥ targetDb m then VolumeStatus.good
  else VolumeStatus.quiet

/-- The three classification outcomes of the game rules (spec §4.4). -/
inductive Verdict where
  | TooQuiet
  | Good
  | TooLoud
deriving DecidableEq

/-- The classifier embedded in the `tick` branch structure (part_000 lines
75, 82, 98): first `db > screamThreshold` → TooLoud, else
`db >= noiseFloor + targetOffset` → Good, else TooQuiet. -/
def classify (currentDb noiseFloor targetOffset screamThreshold : ℚ) : Verdict :=
  if currentDb > screamThreshold then Verdict.TooLoud
  else if currentDb ≥ noiseFloor + targetOffset then Verdict.Good
  else Verdict.TooQuiet

/-- part_000 lines 57-103: the game-loop `tick`, with the EMA factor `α`
exposed as a parameter (the source fixes it to `EMA_ALPHA`).  Inputs: `now`
(`Date.now()`) and `db` (the raw sample from `audioService.getMetrics()`).
The smoothing always updates `currentDb`; then the CALIBRATING branch checks
expiry and clamps the raw sample into the noise floor, and the READING branch
applies the game rules to the raw sample. -/
def tickA (α : ℚ) (m : AppModel) (now db : ℚ) : AppModel :=
  let m1 := { m with currentDb := m.currentDb * (1 - α) + db * α }
  match m.appState with
  | AppState.CALIBRATING =>
      let elapsed := now - m.calibrationStartTime
      if elapsed > CALIBRATION_DURATION_MS then
        let detectedFloor := max (-80) (min (-30) db)
        { m1 with noiseFloor := detectedFloor, appState := AppState.IDLE }
      else m1
  | AppState.READING =>
      let timeDelta := UPDATE_INTERVAL_MS / 1000
      if db > SCREAM_THRESHOLD_DB then
        { m1 with stats := { m1.stats with
            duration := m1.stats.duration + timeDelta,
            tooLoudDuration := m1.stats.tooLoudDuration + timeDelta } }
      else if db ≥ targetDb m then
        let newValidDuration := m1.stats.validDuration + timeDelta
        let newTreesPlanted := ⌊newValidDuration / TREE_CYCLE_SECONDS⌋
        { m1 with stats := { m1.stats with
            duration := m1.stats.duration + timeDelta,
            validDuration := newValidDuration,
            treesPlanted := newTreesPlanted } }
      else
        { m1 with stats := { m1.stats with duration := m1.stats.duration + timeDelta } }
  | _ => m1

/-- The source's `tick` with the configured `EMA_ALPHA`. -/
def tick (m : AppModel) (now db : ℚ) : AppModel := tickA EMA_ALPHA m now db

/-- A sequence of tick invocations; each sample is a pair `(now, rawDb)`. -/
def runTicksA (α : ℚ) (m : AppModel) (samples : List (ℚ × ℚ)) : AppModel :=
  samples.foldl (fun acc s => tickA α acc s.1 s.2) m

/-- `runTicksA` at the configured `EMA_ALPHA`. -/
def runTicks (m : AppModel) (samples : List (ℚ × ℚ)) : AppModel :=
  runTicksA EMA_ALPHA m samples

/-- part_000 lines 115-124: `handleStartCalibration`.  `acquireOk` is whether
`audioService.start()` succeeds.  On success the calibration start time is
recorded and the state becomes CALIBRATING; on failure the thrown error is
caught and a permission message is surfaced, everything else untouched. -/
def handleStartCalibration (m : AppModel) (now : ℚ) (acquireOk : Bool) : AppModel :=
  if acquireOk then
    { m with permissionError := none
             calibrationStartTime := now
             appState := AppState.CALIBRATING }
  else
    { m with permissionError := some "请允许麦克风权限以使用此应用。" }

/-- part_000 lines 126-136: `handleStartReading`.  `sensorActive` is whether
`audioService` already holds an audio context (in which case no acquisition is
attempted); `acquireOk` is whether a fresh `start()` succeeds. -/
def handleStartReading (m : AppModel) (sensorActive acquireOk : Bool) : AppModel :=
  if sensorActive || acquireOk then
    { m with permissionError := none, appState := AppState.READING }
  else
    { m with permissionError := some "需要麦克风权限。" }

/-- part_000 lines 138-141: `handleStop` — go to the summary view.  The sensor
release (`audioService.stop()`) is external and touches no model field. -/
def handleStop (m : AppModel) : AppModel :=
  { m with appState := AppState.COMPLETED }

/-- part_000 lines 143-147: `handleReset` — zero the stats, return to IDLE. -/
def handleReset (m : AppModel) : AppModel :=
  { m with stats := { duration := 0, validDuration := 0, tooLoudDuration := 0, treesPlanted := 0 }
           appState := AppState.IDLE }

/-- part_000 lines 149-152: `handleContinue` — back to IDLE with zeroed stats. -/
def handleContinue (m : AppModel) : AppModel :=
  { m with appState := AppState.IDLE
           stats := { duration := 0, validDuration := 0, tooLoudDuration := 0, treesPlanted := 0 } }

/-- part_000 lines 105-112: the tick timer is armed exactly while the state is
CALIBRATING or READING. -/
def timerArmed (m : AppModel) : Prop :=
  m.appState = AppState.CALIBRATING ∨ m.appState = AppState.READING

instance (m : AppModel) : Decidable (timerArmed m) := by
  unfold timerArmed
  infer_instance

/-! ### Helper lemmas -/

/-- The tick delta is the configured tick period expressed in seconds. -/
lemma delta_val : UPDATE_INTERVAL_MS / 1000 = (1 : ℚ) / 10 := by
  norm_num [UPDATE_INTERVAL_MS]

lemma delta_pos : (0 : ℚ) < UPDATE_INTERVAL_MS / 1000 := by
  norm_num [UPDATE_INTERVAL_MS]

/-- Explicit form of a tick taken in the READING state. -/
lemma tickA_reading (α : ℚ) (m : AppModel) (now db : ℚ)
    (h : m.appState = AppState.READING) :
    tickA α m now db =
      { m with
        currentDb := m.currentDb * (1 - α) + db * α
        stats :=
          if db > SCREAM_THRESHOLD_DB then
            { m.stats with
                duration := m.stats.duration + UPDATE_INTERVAL_MS / 1000
                tooLoudDuration := m.stats.tooLoudDuration + UPDATE_INTERVAL_MS / 1000 }
          else if db ≥ targetDb m then
            { m.stats with
                duration := m.stats.duration + UPDATE_INTERVAL_MS / 1000
                validDuration := m.stats.validDuration + UPDATE_INTERVAL_MS / 1000
                treesPlanted :=
                  ⌊(m.stats.validDuration + UPDATE_INTERVAL_MS / 1000) / TREE_CYCLE_SECONDS⌋ }
          else
            { m.stats with duration := m.stats.duration + UPDATE_INTERVAL_MS / 1000 } } := by
  obtain ⟨st, cdb, nf, stats, pe, cst⟩ := m
  cases h
  by_cases h1 : db > SCREAM_THRESHOLD_DB
  · simp [tickA, h1]
  · by_cases h2 : db ≥ nf + TARGET_DB_OFFSET
    · simp [tickA, targetDb, h1, h2]
    · simp [tickA, targetDb, h1, h2]

/-- Explicit form of a tick taken in the CALIBRATING state. -/
lemma tickA_calibrating (α : ℚ) (m : AppModel) (now db : ℚ)
    (h : m.appState = AppState.CALIBRATING) :
    tickA α m now db =
      if now - m.calibrationStartTime > CALIBRATION_DURATION_MS then
        { m with
            currentDb := m.currentDb * (1 - α) + db * α
            noiseFloor := max (-80) (min (-30) db)
            appState := AppState.IDLE }
      else
        { m with currentDb := m.currentDb * (1 - α) + db * α } := by
  obtain ⟨st, cdb, nf, stats, pe, cst⟩ := m
  cases h
  by_cases hc : now - cst > CALIBRATION_DURATION_MS <;> simp [tickA, hc]

/-- A tick in the READING state keeps every field except `currentDb` and
`stats` unchanged, never decreases the three duration counters, and preserves
the derived-trees invariant. -/
lemma reading_step (α : ℚ) (m : AppModel) (now db : ℚ)
    (h : m.appState = AppState.READING) :
    (tickA α m now db).appState = AppState.READING ∧
    (tickA α m now db).noiseFloor = m.noiseFloor ∧
    m.stats.duration ≤ (tickA α m now db).stats.duration ∧
    m.stats.validDuration ≤ (tickA α m now db).stats.validDuration ∧
    m.stats.tooLoudDuration ≤ (tickA α m now db).stats.tooLoudDuration ∧
    (m.stats.treesPlanted = ⌊m.stats.validDuration / TREE_CYCLE_SECONDS⌋ →
      (tickA α m now db).stats.treesPlanted =
        ⌊(tickA α m now db).stats.validDuration / TREE_CYCLE_SECONDS⌋) := by
  rw [tickA_reading α m now db h]
  have hd := delta_pos
  split_ifs <;>
    refine ⟨h, rfl, ?_, ?_, ?_, ?_⟩ <;>
    simp <;>
    linarith

/-- Two models that agree on everything except the smoothed display value
(and are ticked with possibly different EMA factors) stay in agreement on
state, noise floor, stats and calibration start time after one tick. -/
lemma tickA_score_agree (α₁ α₂ : ℚ) (m₁ m₂ : AppModel) (now db : ℚ)
    (hA : m₁.appState = m₂.appState) (hN : m₁.noiseFloor = m₂.noiseFloor)
    (hS : m₁.stats = m₂.stats) (hC : m₁.calibrationStartTime = m₂.calibrationStartTime) :
    (tickA α₁ m₁ now db).appState = (tickA α₂ m₂ now db).appState ∧
    (tickA α₁ m₁ now db).noiseFloor = (tickA α₂ m₂ now db).noiseFloor ∧
    (tickA α₁ m₁ now db).stats = (tickA α₂ m₂ now db).stats ∧
    (tickA α₁ m₁ now db).calibrationStartTime = (tickA α₂ m₂ now db).calibrationStartTime := by
  obtain ⟨s₁, c₁, n₁, st₁, p₁, t₁⟩ := m₁
  obtain ⟨s₂, c₂, n₂, st₂, p₂, t₂⟩ := m₂
  simp only at hA hN hS hC
  subst hA hN hS hC
  cases s₁ <;> simp [tickA, targetDb] <;> split_ifs <;> simp

/-- Score agreement extends from one tick to any sample sequence. -/
lemma runTicksA_score_agree (α₁ α₂ : ℚ) (samples : List (ℚ × ℚ)) :
    ∀ m₁ m₂ : AppModel,
      m₁.appState = m₂.appState → m₁.noiseFloor = m₂.noiseFloor →
      m₁.stats = m₂.stats → m₁.calibrationStartTime = m₂.calibrationStartTime →
      (runTicksA α₁ m₁ samples).appState = (runTicksA α₂ m₂ samples).appState ∧
      (runTicksA α₁ m₁ samples).noiseFloor = (runTicksA α₂ m₂ samples).noiseFloor ∧
      (runTicksA α₁ m₁ samples).stats = (runTicksA α₂ m₂ samples).stats ∧
      (runTicksA α₁ m₁ samples).calibrationStartTime
        = (runTicksA α₂ m₂ samples).calibrationStartTime := by
  induction samples with
  | nil => intro m₁ m₂ hA hN hS hC; exact ⟨hA, hN, hS, hC⟩
  | cons s rest ih =>
      intro m₁ m₂ hA hN hS hC
      obtain ⟨hA', hN', hS', hC'⟩ := tickA_score_agree α₁ α₂ m₁ m₂ s.1 s.2 hA hN hS hC
      exact ih (tickA α₁ m₁ s.1 s.2) (tickA α₂ m₂ s.1 s.2) hA' hN' hS' hC'

/-- The READING-state invariants of `reading_step`, extended over a whole
sample sequence by induction. -/
lemma runTicksA_reading_inv (α : ℚ) (samples : List (ℚ × ℚ)) :
    ∀ m : AppModel, m.appState = AppState.READING →
      (runTicksA α m samples).appState = AppState.READING ∧
      (runTicksA α m samples).noiseFloor = m.noiseFloor ∧
      m.stats.duration ≤ (runTicksA α m samples).stats.duration ∧
      m.stats.validDuration ≤ (runTicksA α m samples).stats.validDuration ∧
      m.stats.tooLoudDuration ≤ (runTicksA α m samples).stats.tooLoudDuration ∧
      (m.stats.treesPlanted = ⌊m.stats.validDuration / TREE_CYCLE_SECONDS⌋ →
        (runTicksA α m samples).stats.treesPlanted =
          ⌊(runTicksA α m samples).stats.validDuration / TREE_CYCLE_SECONDS⌋) := by
  induction samples with
  | nil =>
      intro m h
      exact ⟨h, rfl, le_refl _, le_refl _, le_refl _, fun hinv => hinv⟩
  | cons s rest ih =>
      intro m h
      obtain ⟨h1, h2, h3, h4, h5, h6⟩ := reading_step α m s.1 s.2 h
      obtain ⟨g1, g2, g3, g4, g5, g6⟩ := ih (tickA α m s.1 s.2) h1
      refine ⟨g1, g2.trans h2, h3.trans g3, h4.trans g4, h5.trans g5, fun hinv => g6 (h6 hinv)⟩

/-- Running `n` consecutive Good ticks (raw sample at most the scream
threshold and at least the target threshold) adds `n` tick deltas to both
`duration` and `validDuration`, leaves `tooLoudDuration` untouched, and stays
in READING with the noise floor unchanged. -/
lemma runTicksA_good_replicate (α : ℚ) (n : ℕ) (now db : ℚ) :
    ∀ m : AppModel, m.appState = AppState.READING →
      ¬ db > SCREAM_THRESHOLD_DB → db ≥ m.noiseFloor + TARGET_DB_OFFSET →
      (runTicksA α m (List.replicate n (now, db))).stats.duration
          = m.stats.duration + n * (UPDATE_INTERVAL_MS / 1000) ∧
      (runTicksA α m (List.replicate n (now, db))).stats.validDuration
          = m.stats.validDuration + n * (UPDATE_INTERVAL_MS / 1000) ∧
      (runTicksA α m (List.replicate n (now, db))).stats.tooLoudDuration
          = m.stats.tooLoudDuration ∧
      (runTicksA α m (List.replicate n (now, db))).appState = AppState.READING ∧
      (runTicksA α m (List.replicate n (now, db))).noiseFloor = m.noiseFloor := by
  induction n with
  | zero =>
      intro m h _ _
      simp [runTicksA, h]
  | succ k ih =>
      intro m h hloud hgood
      have hstep := tickA_reading α m now db h
      have hrepl : List.replicate (k + 1) (now, db) = (now, db) :: List.replicate k (now, db) :=
        List.replicate_succ _ _
      have hg : db ≥ targetDb m := hgood
      have hmid : tickA α m now db =
          { m with
            currentDb := m.currentDb * (1 - α) + db * α
            stats :=
              { m.stats with
                  duration := m.stats.duration + UPDATE_INTERVAL_MS / 1000
                  validDuration := m.stats.validDuration + UPDATE_INTERVAL_MS / 1000
                  treesPlanted :=
                    ⌊(m.stats.validDuration + UPDATE_INTERVAL_MS / 1000) / TREE_CYCLE_SECONDS⌋ } } := by
        rw [hstep, if_neg hloud, if_pos hg]
      have hmid_state : (tickA α m now db).appState = AppState.READING := by
        rw [hmid]
        exact h
      have hmid_floor : (tickA α m now db).noiseFloor = m.noiseFloor := by
        rw [hmid]
      have hdur : (tickA α m now db).stats.duration
          = m.stats.duration + UPDATE_INTERVAL_MS / 1000 := by
        rw [hmid]
      have hvalid : (tickA α m now db).stats.validDuration
          = m.stats.validDuration + UPDATE_INTERVAL_MS / 1000 := by
        rw [hmid]
      have htoo : (tickA α m now db).stats.tooLoudDuration = m.stats.tooLoudDuration := by
        rw [hmid]
      have hrun : runTicksA α m (List.replicate (k + 1) (now, db))
          = runTicksA α (tickA α m now db) (List.replicate k (now, db)) := by
        rw [hrepl]
        rfl
      obtain ⟨i1, i2, i3, i4, i5⟩ :=
        ih (tickA α m now db) hmid_state hloud (by rw [hmid_floor]; exact hgood)
      rw [hrun]
      refine ⟨?_, ?_, ?_, i4, i5.trans hmid_floor⟩
      · rw [i1, hdur]
        push_cast
        ring
      · rw [i2, hvalid]
        push_cast
        ring
      · rw [i3, htoo]

/-- Characterisation of the TooLoud region of `classify`. -/
lemma classify_tooLoud_iff (db nf off s : ℚ) :
    classify db nf off s = Verdict.TooLoud ↔ s < db := by
  unfold classify
  split_ifs with h1 h2
  · exact ⟨fun _ => h1, fun _ => rfl⟩
  · exact ⟨fun hc => hc.elim, fun hlt => absurd hlt h1⟩
  · exact ⟨fun hc => hc.elim, fun hlt => absurd hlt h1⟩

/-- Characterisation of the Good region of `classify`. -/
lemma classify_good_iff (db nf off s : ℚ) :
    classify db nf off s = Verdict.Good ↔ db ≤ s ∧ nf + off ≤ db := by
  unfold classify
  split_ifs with h1 h2
  · exact ⟨fun hc => hc.elim, fun hp => absurd h1 (not_lt.mpr hp.1)⟩
  · exact ⟨fun _ => ⟨not_lt.mp h1, h2⟩, fun _ => rfl⟩
  · exact ⟨fun hc => hc.elim, fun hp => absurd hp.2 h2⟩

/-- Characterisation of the TooQuiet region of `classify`. -/
lemma classify_tooQuiet_iff (db nf off s : ℚ) :
    classify db nf off s = Verdict.TooQuiet ↔ db ≤ s ∧ db < nf + off := by
  unfold classify
  split_ifs with h1 h2
  · exact ⟨fun hc => hc.elim, fun hp => absurd h1 (not_lt.mpr hp.1)⟩
  · exact ⟨fun hc => hc.elim, fun hp => absurd h2 (not_le.mpr hp.2)⟩
  · exact ⟨fun _ => ⟨not_lt.mp h1, not_le.mp h2⟩, fun _ => rfl⟩

/-! ### Claim theorems -/

/-- C2: the classifier is total and its three verdict regions partition the
decibel line with no gap and no overlap: `currentDb > screamThreshold` is
TooLoud (strict, checked first), else `currentDb ≥ noiseFloor + targetOffset`
is Good (inclusive lower bound), else TooQuiet; equality at the target
boundary is Good, and equality at the scream threshold is not TooLoud. -/
theorem C2_classifier_partition (db nf off s : ℚ) :
    (classify db nf off s = Verdict.TooLoud ↔ s < db) ∧
    (classify db nf off s = Verdict.Good ↔ db ≤ s ∧ nf + off ≤ db) ∧
    (classify db nf off s = Verdict.TooQuiet ↔ db ≤ s ∧ db < nf + off) ∧
    (nf + off ≤ s → classify (nf + off) nf off s = Verdict.Good) ∧
    classify s nf off s ≠ Verdict.TooLoud := by
  refine ⟨classify_tooLoud_iff db nf off s, classify_good_iff db nf off s,
    classify_tooQuiet_iff db nf off s, ?_, ?_⟩
  · intro hle
    exact (classify_good_iff (nf + off) nf off s).mpr ⟨hle, le_refl _⟩
  · intro hc
    exact absurd ((classify_tooLoud_iff s nf off s).mp hc) (lt_irrefl s)

/-- Witness for C2: the spec's boundary scenarios with the configured
constants — `noiseFloor = -60`, `targetOffset = 10` make a sample of exactly
-50 dB Good, and -15 dB with scream threshold -15 is Good, not TooLoud. -/
theorem C2_classifier_partition_witness :
    classify (-50) (-60) 10 (-15) = Verdict.Good ∧
    classify (-15) (-60) 10 (-15) = Verdict.Good :=
  ⟨(C2_classifier_partition (-50) (-60) 10 (-15)).2.1.mpr (by norm_num),
   (C2_classifier_partition (-15) (-60) 10 (-15)).2.1.mpr (by norm_num)⟩

/-- C3: on a READING tick, the stats update is exactly determined by the
classifier's verdict — TooLoud adds the tick delta to `duration` and
`tooLoudDuration`; Good adds it to `duration` and `validDuration` and
recomputes `treesPlanted` as the floor of the updated total over the tree
cycle; TooQuiet adds it to `duration` only; no other field changes and the
tick performs no state transition. -/
theorem C3_reading_tick_update (m : AppModel) (now db : ℚ)
    (h : m.appState = AppState.READING) :
    (tick m now db).appState = m.appState ∧
    (tick m now db).stats =
      (match classify db m.noiseFloor TARGET_DB_OFFSET SCREAM_THRESHOLD_DB with
       | Verdict.TooLoud =>
           { m.stats with
               duration := m.stats.duration + UPDATE_INTERVAL_MS / 1000
               tooLoudDuration := m.stats.tooLoudDuration + UPDATE_INTERVAL_MS / 1000 }
       | Verdict.Good =>
           { duration := m.stats.duration + UPDATE_INTERVAL_MS / 1000
             validDuration := m.stats.validDuration + UPDATE_INTERVAL_MS / 1000
             tooLoudDuration := m.stats.tooLoudDuration
             treesPlanted :=
               ⌊(m.stats.validDuration + UPDATE_INTERVAL_MS / 1000) / TREE_CYCLE_SECONDS⌋ }
       | Verdict.TooQuiet =>
           { m.stats with duration := m.stats.duration + UPDATE_INTERVAL_MS / 1000 }) := by
  have hstep := tickA_reading EMA_ALPHA m now db h
  constructor
  · show (tickA EMA_ALPHA m now db).appState = m.appState
    rw [hstep]
  · show (tickA EMA_ALPHA m now db).stats = _
    rw [hstep]
    unfold classify targetDb
    split_ifs <;> simp

/-- Witness for C3, applying the tick-update theorem in the state reached by a
successful `startReading` from the initial model. -/
theorem C3_reading_tick_update_witness :
    (tick (handleStartReading initModel false true) 0 (-40)).appState
      = (handleStartReading initModel false true).appState :=
  (C3_reading_tick_update (handleStartReading initModel false true) 0 (-40) rfl).1

/-- C5: when a calibration run expires, the new noise floor is the most
recent raw sample clamped into [-80, -30] and the state returns to IDLE; in
particular a raw sample of -45 gives -45, -95 gives -80 and -5 gives -30. -/
theorem C5_calibration_expiry (m : AppModel) (now db : ℚ)
    (h : m.appState = AppState.CALIBRATING)
    (hexp : now - m.calibrationStartTime > CALIBRATION_DURATION_MS) :
    (tick m now db).noiseFloor = max (-80) (min (-30) db) ∧
    (tick m now db).appState = AppState.IDLE ∧
    (db = -45 → (tick m now db).noiseFloor = -45) ∧
    (db = -95 → (tick m now db).noiseFloor = -80) ∧
    (db = -5 → (tick m now db).noiseFloor = -30) := by
  have hstep := tickA_calibrating EMA_ALPHA m now db h
  have hnf : (tick m now db).noiseFloor = max (-80) (min (-30) db) := by
    show (tickA EMA_ALPHA m now db).noiseFloor = _
    rw [hstep, if_pos hexp]
  have hst : (tick m now db).appState = AppState.IDLE := by
    show (tickA EMA_ALPHA m now db).appState = _
    rw [hstep, if_pos hexp]
  refine ⟨hnf, hst, ?_, ?_, ?_⟩ <;> intro hdb <;> rw [hnf, hdb] <;>
    norm_num [min_def, max_def]

/-- Witness for C5: a calibration started at time 0 from the initial model and
ticked at time 3001 ms with raw samples -45, -95 and -5 produces the three
clamped noise floors the spec states. -/
theorem C5_calibration_expiry_witness :
    (tick (handleStartCalibration initModel 0 true) 3001 (-45)).noiseFloor = -45 ∧
    (tick (handleStartCalibration initModel 0 true) 3001 (-95)).noiseFloor = -80 ∧
    (tick (handleStartCalibration initModel 0 true) 3001 (-5)).noiseFloor = -30 := by
  have hexp : (3001 : ℚ) - (handleStartCalibration initModel 0 true).calibrationStartTime
      > CALIBRATION_DURATION_MS := by
    norm_num [handleStartCalibration, initModel, CALIBRATION_DURATION_MS]
  refine ⟨?_, ?_, ?_⟩
  · exact (C5_calibration_expiry (handleStartCalibration initModel 0 true)
      3001 (-45) rfl hexp).2.2.1 rfl
  · exact (C5_calibration_expiry (handleStartCalibration initModel 0 true)
      3001 (-95) rfl hexp).2.2.2.1 rfl
  · exact (C5_calibration_expiry (handleStartCalibration initModel 0 true)
      3001 (-5) rfl hexp).2.2.2.2 rfl

/-- C1: over any sequence of ticks processed in READING, the duration
accounting identity holds (too-quiet time being the derived remainder), the
three explicit counters never decrease, and the stored `treesPlanted` always
equals the floor of the stored `validDuration` over the tree cycle, provided
it did initially. -/
theorem C1_session_stats_invariants (m : AppModel) (samples : List (ℚ × ℚ))
    (h : m.appState = AppState.READING)
    (hinv : m.stats.treesPlanted = ⌊m.stats.validDuration / TREE_CYCLE_SECONDS⌋) :
    (runTicks m samples).stats.duration
        = (runTicks m samples).stats.validDuration
          + (runTicks m samples).stats.tooLoudDuration
          + ((runTicks m samples).stats.duration
             - (runTicks m samples).stats.validDuration
             - (runTicks m samples).stats.tooLoudDuration) ∧
    m.stats.duration ≤ (runTicks m samples).stats.duration ∧
    m.stats.validDuration ≤ (runTicks m samples).stats.validDuration ∧
    m.stats.tooLoudDuration ≤ (runTicks m samples).stats.tooLoudDuration ∧
    (runTicks m samples).stats.treesPlanted
        = ⌊(runTicks m samples).stats.validDuration / TREE_CYCLE_SECONDS⌋ := by
  obtain ⟨h1, h2, h3, h4, h5, h6⟩ := runTicksA_reading_inv EMA_ALPHA samples m h
  exact ⟨by ring, h3, h4, h5, h6 hinv⟩

/-- Witness for C1 on a concrete three-tick run (one good, one loud, one
quiet sample) from the state reached by a successful `startReading`. -/
theorem C1_session_stats_invariants_witness :
    (handleStartReading initModel false true).stats.validDuration
        ≤ (runTicks (handleStartReading initModel false true)
            [((0 : ℚ), (-40 : ℚ)), (0, -10), (0, -90)]).stats.validDuration ∧
    (runTicks (handleStartReading initModel false true)
        [((0 : ℚ), (-40 : ℚ)), (0, -10), (0, -90)]).stats.treesPlanted
      = ⌊(runTicks (handleStartReading initModel false true)
            [((0 : ℚ), (-40 : ℚ)), (0, -10), (0, -90)]).stats.validDuration
          / TREE_CYCLE_SECONDS⌋ := by
  have h := C1_session_stats_invariants (handleStartReading initModel false true)
    [((0 : ℚ), (-40 : ℚ)), (0, -10), (0, -90)] rfl
    (by norm_num [handleStartReading, initModel, TREE_CYCLE_SECONDS,
      MAX_TREE_HEIGHT, POINTS_PER_SECOND])
  exact ⟨h.2.2.1, h.2.2.2.2⟩

/-- C4: with the configured 100 ms tick period and 10-second tree cycle,
exactly 100 consecutive Good ticks from zeroed stats give 10 seconds of valid
duration, one planted tree, and a growth percentage of 0 (wrapped to the
start of the next cycle), not 100. -/
theorem C4_hundred_good_ticks :
    (runTicks (handleStartReading initModel false true)
        (List.replicate 100 ((0 : ℚ), (-40 : ℚ)))).stats.validDuration = 10 ∧
    (runTicks (handleStartReading initModel false true)
        (List.replicate 100 ((0 : ℚ), (-40 : ℚ)))).stats.treesPlanted = 1 ∧
    growthPercentage (runTicks (handleStartReading initModel false true)
        (List.replicate 100 ((0 : ℚ), (-40 : ℚ)))).stats = 0 := by
  obtain ⟨hd, hv, ht, hs, hn⟩ :=
    runTicksA_good_replicate EMA_ALPHA 100 0 (-40) (handleStartReading initModel false true)
      rfl
      (by norm_num [SCREAM_THRESHOLD_DB])
      (by norm_num [handleStartReading, initModel, DEFAULT_NOISE_FLOOR_DB, TARGET_DB_OFFSET])
  have hvalidA : (runTicksA EMA_ALPHA (handleStartReading initModel false true)
      (List.replicate 100 ((0 : ℚ), (-40 : ℚ)))).stats.validDuration = 10 := by
    rw [hv]
    norm_num [handleStartReading, initModel, UPDATE_INTERVAL_MS]
  have htress := (runTicksA_reading_inv EMA_ALPHA
      (List.replicate 100 ((0 : ℚ), (-40 : ℚ))) (handleStartReading initModel false true)
      rfl).2.2.2.2.2
    (by norm_num [handleStartReading, initModel, TREE_CYCLE_SECONDS,
      MAX_TREE_HEIGHT, POINTS_PER_SECOND])
  refine ⟨?_, ?_, ?_⟩
  · unfold runTicks
    exact hvalidA
  · unfold runTicks
    rw [htress, hvalidA]
    norm_num [TREE_CYCLE_SECONDS, MAX_TREE_HEIGHT, POINTS_PER_SECOND]
  · unfold runTicks growthPercentage
    rw [hvalidA]
    norm_num [jsMod, jsTrunc, TREE_CYCLE_SECONDS, MAX_TREE_HEIGHT, POINTS_PER_SECOND,
      min_def]

/-- C6: if sensor acquisition fails during `startCalibration` or
`startReading` from IDLE, the state stays IDLE, a user-visible permission
message is surfaced, no stats or noise-floor field changes, and the tick
timer is not armed (the failure never reaches the tick loop). -/
theorem C6_acquisition_failure (m : AppModel) (now : ℚ)
    (h : m.appState = AppState.IDLE) :
    ((handleStartCalibration m now false).appState = AppState.IDLE ∧
     (handleStartCalibration m now false).stats = m.stats ∧
     (handleStartCalibration m now false).noiseFloor = m.noiseFloor ∧
     (handleStartCalibration m now false).calibrationStartTime = m.calibrationStartTime ∧
     (handleStartCalibration m now false).permissionError
        = some "请允许麦克风权限以使用此应用。" ∧
     ¬ timerArmed (handleStartCalibration m now false)) ∧
    ((handleStartReading m false false).appState = AppState.IDLE ∧
     (handleStartReading m false false).stats = m.stats ∧
     (handleStartReading m false false).noiseFloor = m.noiseFloor ∧
     (handleStartReading m false false).permissionError = some "需要麦克风权限。" ∧
     ¬ timerArmed (handleStartReading m false false)) := by
  unfold handleStartCalibration handleStartReading timerArmed
  simp [h]

/-- Witness for C6 at the initial model. -/
theorem C6_acquisition_failure_witness :
    (handleStartCalibration initModel 0 false).appState = AppState.IDLE ∧
    (handleStartReading initModel false false).appState = AppState.IDLE ∧
    ¬ timerArmed (handleStartCalibration initModel 0 false) := by
  obtain ⟨⟨a, -, -, -, -, f⟩, ⟨b, -⟩⟩ := C6_acquisition_failure initModel 0 rfl
  exact ⟨a, b, f⟩

/-- C7: the reset action, and the continue action from the summary view, zero
all four SessionStats fields together and return the state to IDLE; the
record equality rules out any partial reset. -/
theorem C7_reset_zeroes_stats (m : AppModel) :
    (handleReset m).stats
      = { duration := 0, validDuration := 0, tooLoudDuration := 0, treesPlanted := 0 } ∧
    (handleReset m).appState = AppState.IDLE ∧
    (handleContinue m).stats
      = { duration := 0, validDuration := 0, tooLoudDuration := 0, treesPlanted := 0 } ∧
    (handleContinue m).appState = AppState.IDLE :=
  ⟨rfl, rfl, rfl, rfl⟩

/-- C8: the noise floor is untouched by every action handler and by READING
ticks, and holds the configured default before any calibration. -/
theorem C8_noise_floor_frame (m : AppModel) (now db : ℚ) (sa ok : Bool) :
    (handleStartCalibration m now ok).noiseFloor = m.noiseFloor ∧
    (handleStartReading m sa ok).noiseFloor = m.noiseFloor ∧
    (handleStop m).noiseFloor = m.noiseFloor ∧
    (handleReset m).noiseFloor = m.noiseFloor ∧
    (handleContinue m).noiseFloor = m.noiseFloor ∧
    (m.appState = AppState.READING → (tick m now db).noiseFloor = m.noiseFloor) ∧
    initModel.noiseFloor = DEFAULT_NOISE_FLOOR_DB := by
  refine ⟨?_, ?_, rfl, rfl, rfl, ?_, rfl⟩
  · unfold handleStartCalibration
    split_ifs <;> rfl
  · unfold handleStartReading
    split_ifs <;> rfl
  · intro h
    exact (reading_step EMA_ALPHA m now db h).2.1

/-- Witness for C8: a READING tick on a concrete model leaves the noise floor
as it was. -/
theorem C8_noise_floor_frame_witness :
    (tick (handleStartReading initModel false true) 0 (-40)).noiseFloor
      = (handleStartReading initModel false true).noiseFloor :=
  (C8_noise_floor_frame (handleStartReading initModel false true) 0 (-40) false true).2.2.2.2.2.1
    rfl

/-- C9: the EMA smoother has no effect on scoring — two runs fed the same raw
samples from states agreeing on everything but the smoothed display value,
even under different alpha constants, produce identical SessionStats and
noise floors. -/
theorem C9_smoother_no_scoring_effect (alpha1 alpha2 : ℚ) (m1 m2 : AppModel)
    (samples : List (ℚ × ℚ))
    (hA : m1.appState = m2.appState) (hN : m1.noiseFloor = m2.noiseFloor)
    (hS : m1.stats = m2.stats) (hC : m1.calibrationStartTime = m2.calibrationStartTime) :
    (runTicksA alpha1 m1 samples).stats = (runTicksA alpha2 m2 samples).stats ∧
    (runTicksA alpha1 m1 samples).noiseFloor = (runTicksA alpha2 m2 samples).noiseFloor := by
  obtain ⟨-, hn, hs, -⟩ := runTicksA_score_agree alpha1 alpha2 samples m1 m2 hA hN hS hC
  exact ⟨hs, hn⟩

/-- Witness for C9: the configured alpha versus alpha = 1 on models differing
only in the smoothed value give the same stats after a tick sequence. -/
theorem C9_smoother_no_scoring_effect_witness :
    (runTicksA EMA_ALPHA initModel [((0 : ℚ), (-40 : ℚ)), (0, -10)]).stats
      = (runTicksA 1 { initModel with currentDb := 0 } [((0 : ℚ), (-40 : ℚ)), (0, -10)]).stats :=
  (C9_smoother_no_scoring_effect EMA_ALPHA 1 initModel { initModel with currentDb := 0 }
    [((0 : ℚ), (-40 : ℚ)), (0, -10)] rfl rfl rfl rfl).1

/-- C10: stopping from READING moves the state to COMPLETED and leaves every
SessionStats field (and the noise floor) exactly as accumulated. -/
theorem C10_stop_preserves_stats (m : AppModel) (_h : m.appState = AppState.READING) :
    (handleStop m).appState = AppState.COMPLETED ∧
    (handleStop m).stats = m.stats ∧
    (handleStop m).noiseFloor = m.noiseFloor :=
  ⟨rfl, rfl, rfl⟩

/-- Witness for C10 in the state reached by a successful `startReading`. -/
theorem C10_stop_preserves_stats_witness :
    (handleStop (handleStartReading initModel false true)).stats
      = (handleStartReading initModel false true).stats :=
  (C10_stop_preserves_stats (handleStartReading initModel false true) rfl).2.1

end SmallTree
